import Mathlib

/-!
Verification of the meditations generation control plane.

This file shallowly embeds the submission route
(apps/server/src/routes/generations.ts, current revision), the pipeline
worker (apps/server/src/jobs/video-generate-worker.ts), the media
composer (services/media/ffmpeg-service.ts) and the durationSeconds
field of the shared zod schema
(packages/shared/src/schemas/generation.ts), and proves the spec's
claims about them.
-/

deriving instance DecidableEq for Except

namespace Meditations

/-! ## Shared constants (packages/shared: GENERATION_STATUS, SCRIPT_TYPE,
    VIDEO_VISIBILITY, CREDIT_TRANSACTION_TYPE) -/

inductive GenerationStatus
  | pending
  | generating_script
  | generating_voice
  | generating_video
  | compositing
  | completed
  | failed
  deriving DecidableEq, Repr

inductive ScriptType
  | ai_generated
  | user_provided
  | template
  deriving DecidableEq, Repr

-- VIDEO_VISIBILITY = { PUBLIC: 'public', PRIVATE: 'private', PENDING_REVIEW: 'pending_review' }
-- (public/private are Lean keywords, hence the v-prefix)
inductive Visibility
  | vpublic
  | vprivate
  | pending_review
  deriving DecidableEq, Repr

inductive CreditTransactionType
  | purchase
  | generation_spend
  | private_surcharge
  | refund
  deriving DecidableEq, Repr

/-! ## Pricing (routes/generations.ts lines 14-21, 37-40) -/

-- const CREDITS_BY_DURATION: Record<number, number> = { 60: 5, 120: 8, 180: 12, 300: 15 };
-- the route reads it as CREDITS_BY_DURATION[durationSeconds] || 5
def CREDITS_BY_DURATION (durationSeconds : Nat) : Nat :=
  if durationSeconds = 60 then 5
  else if durationSeconds = 120 then 8
  else if durationSeconds = 180 then 12
  else if durationSeconds = 300 then 15
  else 5

def PRIVATE_SURCHARGE : Nat := 3

-- let creditsNeeded = CREDITS_BY_DURATION[durationSeconds] || 5;
-- if (visibility === VIDEO_VISIBILITY.PRIVATE) creditsNeeded += PRIVATE_SURCHARGE;
def creditsNeededFor (durationSeconds : Nat) (visibility : Visibility) : Nat :=
  CREDITS_BY_DURATION durationSeconds +
    (if visibility = Visibility.vprivate then PRIVATE_SURCHARGE else 0)

/-! ## durationSeconds field of createGenerationRequestSchema
    (packages/shared/src/schemas/generation.ts line 29):

    z.enum(['60', '120', '180', '300']).transform(Number)
      .or(z.literal(60)).or(z.literal(120)).or(z.literal(180)).or(z.literal(300))

    A zod union tries its options in order and returns the first success;
    a transform branch that validates applies its transform.  JSON values
    relevant to this field are numbers and strings (other shapes fail every
    branch). -/

inductive Json
  | num (q : ℚ)
  | str (s : String)
  | boolean (b : Bool)
  | jnull
  deriving DecidableEq, Repr

-- z.enum(['60', '120', '180', '300']): accepts exactly these strings
def zodDurationEnum (j : Json) : Option String :=
  match j with
  | Json.str s =>
      if s = "60" ∨ s = "120" ∨ s = "180" ∨ s = "300" then some s else none
  | _ => none

-- JavaScript Number(s) restricted to the four strings the enum lets through
def jsNumberOfEnum (s : String) : ℚ :=
  if s = "60" then 60 else if s = "120" then 120 else if s = "180" then 180 else 300

-- z.literal(n): accepts exactly the number n
def zodLiteralNum (n : ℚ) (j : Json) : Option ℚ :=
  match j with
  | Json.num m => if m = n then some m else none
  | _ => none

-- the .or chain: the first branch that succeeds wins, left to right
def parseDurationSeconds (j : Json) : Option ℚ :=
  match (zodDurationEnum j).map jsNumberOfEnum with
  | some q => some q
  | none =>
    match zodLiteralNum 60 j with
    | some q => some q
    | none =>
      match zodLiteralNum 120 j with
      | some q => some q
      | none =>
        match zodLiteralNum 180 j with
        | some q => some q
        | none => zodLiteralNum 300 j

/-! ## Database rows (apps/server/src/db/schema.ts, fields the control
    plane reads and writes) -/

structure UserRow where
  id : String
  creditsBalance : Int
  deriving DecidableEq, Repr

structure GenRequestRow where
  id : String
  userId : String
  status : GenerationStatus
  visualPrompt : String
  scriptType : ScriptType
  scriptContent : Option String
  durationSeconds : Nat
  ambientSoundId : Option String
  musicTrackId : Option String
  creditsCharged : Int
  progress : Nat
  videoId : Option String
  deriving DecidableEq, Repr

structure CreditTxnRow where
  userId : String
  amount : Int
  type : CreditTransactionType
  description : String
  deriving DecidableEq, Repr

structure Db where
  users : List UserRow
  generationRequests : List GenRequestRow
  creditTransactions : List CreditTxnRow
  deriving DecidableEq, Repr

/-! ## Submission route: POST /api/generations
    (routes/generations.ts, current revision, lines 28-121) -/

structure CreateGenerationInput where
  visualPrompt : String
  scriptType : ScriptType
  scriptContent : Option String
  durationSeconds : Nat
  ambientSoundId : Option String
  musicTrackId : Option String
  visibility : Visibility
  deriving DecidableEq, Repr

-- UPDATE users SET credits_balance = credits_balance - c, updated_at = now()
-- WHERE id = uid AND credits_balance >= c RETURNING credits_balance
-- First component: the table after the update.  Second: the RETURNING rows.
def guardedDeductUpdate (t : List UserRow) (uid : String) (c : Int) :
    List UserRow × List Int :=
  (t.map fun u =>
     if u.id = uid ∧ c ≤ u.creditsBalance then
       { u with creditsBalance := u.creditsBalance - c }
     else u,
   (t.filter fun u => decide (u.id = uid ∧ c ≤ u.creditsBalance)).map
     fun u => u.creditsBalance - c)

/-- Modelled from the spec: BullMQ job insertion with an explicit jobId is not
part of this repository.  Per the spec, the queue message id equals the given
id and enqueue is idempotent: adding a job whose id is already present
creates no second message. -/
def enqueueAdd (queue : List String) (jobId : String) : List String :=
  if jobId ∈ queue then queue else queue ++ [jobId]

inductive SubmitResponse
  | created (req : GenRequestRow)
  | insufficient (required : Int)
  | internalErr
  deriving DecidableEq, Repr

structure SubmitOutcome where
  statusCode : Nat
  response : SubmitResponse
  db : Db
  queue : List String
  deriving DecidableEq, Repr

-- tx.insert(creditTransactions).values({...})
def builtTxn (uid : String) (input : CreateGenerationInput) : CreditTxnRow :=
  { userId := uid
    amount := -(creditsNeededFor input.durationSeconds input.visibility : Nat)
    type := CreditTransactionType.generation_spend
    description := "Video generation (" ++ toString input.durationSeconds
      ++ "s" ++ (if input.visibility = Visibility.vprivate then ", private" else "")
      ++ ")" }

-- tx.insert(generationRequests).values({...}).returning()
def builtRequest (uid : String) (input : CreateGenerationInput) (newId : String) :
    GenRequestRow :=
  { id := newId
    userId := uid
    status := GenerationStatus.pending
    visualPrompt := input.visualPrompt
    scriptType := input.scriptType
    -- scriptContent: scriptContent || null
    scriptContent :=
      match input.scriptContent with
      | some s => if s = "" then none else some s
      | none => none
    durationSeconds := input.durationSeconds
    -- ambientSoundId: ambientSoundId || null, musicTrackId likewise
    ambientSoundId := input.ambientSoundId
    musicTrackId := input.musicTrackId
    creditsCharged := (creditsNeededFor input.durationSeconds input.visibility : Nat)
    progress := 0
    videoId := none }

-- the committed database state after the transaction succeeds
def committedDb (db : Db) (uid : String) (input : CreateGenerationInput)
    (newId : String) : Db :=
  { users := (guardedDeductUpdate db.users uid
                (creditsNeededFor input.durationSeconds input.visibility : Nat)).1
    generationRequests := db.generationRequests ++ [builtRequest uid input newId]
    creditTransactions := db.creditTransactions ++ [builtTxn uid input] }

-- the best-effort UPDATE generation_requests SET status = FAILED WHERE id = newId
def markRequestFailed (db : Db) (newId : String) : Db :=
  { db with
    generationRequests := db.generationRequests.map fun r =>
      if r.id = newId then { r with status := GenerationStatus.failed } else r }

-- The POST / handler body after schema validation succeeded.
-- newId stands for the database-generated id of the inserted request;
-- enqueueOk says whether videoGenerateQueue.add resolves or rejects.
def postGeneration (db : Db) (queue : List String) (uid : String)
    (input : CreateGenerationInput) (newId : String) (enqueueOk : Bool) :
    SubmitOutcome :=
  let creditsNeeded : Int :=
    (creditsNeededFor input.durationSeconds input.visibility : Nat)
  -- db.transaction: guarded deduction, ledger insert, request insert.
  -- An INSUFFICIENT_CREDITS throw aborts the transaction (nothing committed)
  -- and the catch block answers 402 { error, required }.
  -- const [updated] = returning; if (!updated) throw INSUFFICIENT_CREDITS
  match (guardedDeductUpdate db.users uid creditsNeeded).2.head? with
  | none =>
      { statusCode := 402
        response := SubmitResponse.insufficient creditsNeeded
        db := db
        queue := queue }
  | some _newBalance =>
      -- transaction committed; now videoGenerateQueue.add('generate',
      -- { generationRequestId: result.id }, { jobId: result.id })
      if enqueueOk then
        { statusCode := 201
          response := SubmitResponse.created (builtRequest uid input newId)
          db := committedDb db uid input newId
          queue := enqueueAdd queue newId }
      else
        -- catch: best-effort UPDATE status = FAILED, then 500 Internal
        { statusCode := 500
          response := SubmitResponse.internalErr
          db := markRequestFailed (committedDb db uid input newId) newId
          queue := queue }

/-! ## Progress endpoint: GET /api/generations/:id/progress
    (routes/generations.ts, current revision, lines 147-172) -/

structure ProgressView where
  id : String
  status : GenerationStatus
  progress : Nat
  videoId : Option String
  deriving DecidableEq, Repr

-- SELECT id, status, progress, video_id FROM generation_requests
-- WHERE id = :reqId AND user_id = :userId LIMIT 1; 404 when empty
def getProgress (db : Db) (userId reqId : String) : Except Nat ProgressView :=
  match db.generationRequests.find?
      (fun r => decide (r.id = reqId ∧ r.userId = userId)) with
  | none => Except.error 404
  | some r => Except.ok { id := r.id, status := r.status,
                          progress := r.progress, videoId := r.videoId }

/-! ## Pipeline worker (apps/server/src/jobs/video-generate-worker.ts)

    One call of processJob is one queue attempt.  Results of awaited
    collaborator calls (providers, storage, the database selects, the
    fallible steps inside the try block) are inputs of the model; the
    trace records every updateGeneration write, every job.updateProgress
    call, the number of checkStatus calls and whether cleanupTempDir was
    invoked. -/

-- one updateGeneration(id, status, progress, extra?) write
structure StatusUpdate where
  status : GenerationStatus
  progress : Nat
  deriving DecidableEq, Repr

def VEO_POLL_INTERVAL_MS : Nat := 10000

def VEO_MAX_POLLS : Nat := 48

-- Math.min(40 + Math.round((polls / VEO_MAX_POLLS) * 35), 75).
-- For 0 <= polls <= 48 the double computation is exact enough that
-- Math.round agrees with round-half-up of the rational 35*polls/48,
-- which is the integer (35 * polls + 24) / 48.
def pollProgress (polls : Nat) : Nat :=
  min (40 + (35 * polls + 24) / 48) 75

inductive VeoStatus
  | processing
  | completed
  | failedSt (err : String)
  deriving DecidableEq, Repr

structure PollOut where
  writes : List Nat
  checks : Nat
  result : Except String VeoStatus
  deriving DecidableEq, Repr

-- The poll loop of stage 3.  statusAt k is the result of the (k+1)-st
-- checkStatus call (call 0 happens before the loop).  The remaining poll
-- budget is explicit: remaining = VEO_MAX_POLLS - polls, so the source
-- guard (polls >= VEO_MAX_POLLS) is the case remaining = 0.
def pollLoop (statusAt : Nat → Except String VeoStatus) (st : VeoStatus)
    (polls remaining : Nat) : PollOut :=
  match st with
  | VeoStatus.completed => { writes := [], checks := 0, result := Except.ok VeoStatus.completed }
  | VeoStatus.failedSt e => { writes := [], checks := 0, result := Except.ok (VeoStatus.failedSt e) }
  | VeoStatus.processing =>
    match remaining with
    | 0 => { writes := [], checks := 0,
             result := Except.error "Veo video generation timed out after 8 minutes" }
    | r + 1 =>
      -- sleep VEO_POLL_INTERVAL_MS, then checkStatus again
      match statusAt (polls + 1) with
      | Except.error e => { writes := [], checks := 1, result := Except.error e }
      | Except.ok st2 =>
        let rest := pollLoop statusAt st2 (polls + 1) r
        { writes := pollProgress (polls + 1) :: rest.writes
          checks := rest.checks + 1
          result := rest.result }

/-! ## Media composer (services/media/ffmpeg-service.ts, compose) -/

structure ComposeEnv where
  hasAmbient : Bool
  hasMusic : Bool
  -- writing the input streams into the scratch directory
  writesOk : Bool
  -- ffprobe of the voiceover: format.duration may be absent
  probe : Except String (Option ℚ)
  ffmpegRunOk : Bool
  thumbOk : Bool
  deriving DecidableEq, Repr

structure ComposeOut where
  durationSeconds : Int
  -- the value of the -t output option (String(durationSeconds))
  trimSeconds : Int
  deriving DecidableEq, Repr

structure ComposeResult where
  -- mkdir(workDir) ran (it is the first statement, so always true)
  dirCreated : Bool
  result : Except String ComposeOut
  deriving DecidableEq, Repr

-- compose never removes workDir itself: cleanup is only the returned
-- cleanupTempDir closure, which exists only on the success path.
def compose (env : ComposeEnv) : ComposeResult :=
  if ¬ env.writesOk then { dirCreated := true, result := Except.error "stream write failed" }
  else
    match env.probe with
    | Except.error e => { dirCreated := true, result := Except.error e }
    | Except.ok d =>
      -- const durationSeconds = Math.ceil(voiceProbe.format.duration ?? 0)
      let durationSeconds : Int := ⌈d.getD 0⌉
      if durationSeconds < 1 then
        { dirCreated := true, result := Except.error "Invalid voiceover duration" }
      else if ¬ env.ffmpegRunOk then
        { dirCreated := true, result := Except.error "ffmpeg encoding failed" }
      else if ¬ env.thumbOk then
        { dirCreated := true, result := Except.error "thumbnail extraction failed" }
      else
        { dirCreated := true
          result := Except.ok { durationSeconds := durationSeconds,
                                trimSeconds := durationSeconds } }

/-! ## The worker attempt -/

structure PipelineEnv where
  -- SELECT of the generation request row
  genReq : Option GenRequestRow
  -- providers.script.generateScript
  scriptGen : Except String String
  -- providers.voice.synthesize
  voiceSynth : Except String Unit
  -- storage.upload of the voiceover
  voiceUpload : Except String Unit
  -- providers.video.generateVideo, returning the Veo jobId
  videoStart : Except String String
  -- the k-th providers.video.checkStatus call
  veoStatusAt : Nat → Except String VeoStatus
  -- providers.video.downloadResult and storage.download of the voiceover
  videoDownload : Except String Unit
  voiceDownload : Except String Unit
  -- optional ambient / music: DB select + storage.download
  ambientLoad : Except String Unit
  musicLoad : Except String Unit
  composeEnv : ComposeEnv
  -- the awaits inside the try block
  update95 : Except String Unit
  finalUploads : Except String Unit
  videoInsert : Except String String
  finalUpdate : Except String Unit

structure StageOut (α : Type) where
  dbWrites : List StatusUpdate
  jobWrites : List Nat
  result : Except String α

-- Stage 1 (script, 5 -> 15): run when scriptType is ai_generated or
-- scriptContent is falsy (null or the empty string)
def scriptStage (env : PipelineEnv) (req : GenRequestRow) : StageOut String :=
  let scriptText := req.scriptContent
  if req.scriptType = ScriptType.ai_generated ∨ scriptText = none ∨ scriptText = some "" then
    match env.scriptGen with
    | Except.error e =>
        { dbWrites := [⟨GenerationStatus.generating_script, 5⟩]
          jobWrites := [5], result := Except.error e }
    | Except.ok s =>
        { dbWrites := [⟨GenerationStatus.generating_script, 5⟩,
                       ⟨GenerationStatus.generating_script, 15⟩]
          jobWrites := [5, 15], result := Except.ok s }
  else
    { dbWrites := [], jobWrites := [], result := Except.ok (scriptText.getD "") }

-- Stage 2 (voiceover, 20 -> 35): synthesize, upload to S3
def voiceStage (env : PipelineEnv) : StageOut Unit :=
  match env.voiceSynth with
  | Except.error e =>
      { dbWrites := [⟨GenerationStatus.generating_voice, 20⟩]
        jobWrites := [20], result := Except.error e }
  | Except.ok _ =>
    match env.voiceUpload with
    | Except.error e =>
        { dbWrites := [⟨GenerationStatus.generating_voice, 20⟩]
          jobWrites := [20], result := Except.error e }
    | Except.ok _ =>
        { dbWrites := [⟨GenerationStatus.generating_voice, 20⟩,
                       ⟨GenerationStatus.generating_voice, 35⟩]
          jobWrites := [20, 35], result := Except.ok () }

-- Stage 3 (video, 40 -> 75): start the Veo job, initial checkStatus,
-- poll loop, then the explicit failed check.  Also returns the number
-- of checkStatus calls made.
def videoStage (env : PipelineEnv) : StageOut Unit × Nat :=
  match env.videoStart with
  | Except.error e =>
      ({ dbWrites := [⟨GenerationStatus.generating_video, 40⟩]
         jobWrites := [40], result := Except.error e }, 0)
  | Except.ok _jobId =>
    match env.veoStatusAt 0 with
    | Except.error e =>
        ({ dbWrites := [⟨GenerationStatus.generating_video, 40⟩]
           jobWrites := [40], result := Except.error e }, 1)
    | Except.ok st0 =>
      let p := pollLoop env.veoStatusAt st0 0 VEO_MAX_POLLS
      match p.result with
      | Except.error e =>
          ({ dbWrites := [⟨GenerationStatus.generating_video, 40⟩]
             jobWrites := 40 :: p.writes, result := Except.error e }, p.checks + 1)
      | Except.ok (VeoStatus.failedSt err) =>
          ({ dbWrites := [⟨GenerationStatus.generating_video, 40⟩]
             jobWrites := 40 :: p.writes
             result := Except.error ("Veo generation failed: " ++ err) }, p.checks + 1)
      | Except.ok _ =>
          ({ dbWrites := [⟨GenerationStatus.generating_video, 40⟩,
                          ⟨GenerationStatus.generating_video, 75⟩]
             jobWrites := 40 :: p.writes ++ [75], result := Except.ok () }, p.checks + 1)

-- Stages 4 and 5 (compose 78 -> 95, publish -> 100).  The second and third
-- components report whether compose was invoked and whether
-- compositionResult.cleanupTempDir() was invoked (the finally block).
def composePublishStage (env : PipelineEnv) (req : GenRequestRow) :
    StageOut Unit × Bool × Bool :=
  let w78 : List StatusUpdate := [⟨GenerationStatus.compositing, 78⟩]
  match env.videoDownload with
  | Except.error e => ({ dbWrites := w78, jobWrites := [78], result := Except.error e }, false, false)
  | Except.ok _ =>
  match env.voiceDownload with
  | Except.error e => ({ dbWrites := w78, jobWrites := [78], result := Except.error e }, false, false)
  | Except.ok _ =>
  match (if req.ambientSoundId.isSome then env.ambientLoad else Except.ok ()) with
  | Except.error e => ({ dbWrites := w78, jobWrites := [78], result := Except.error e }, false, false)
  | Except.ok _ =>
  match (if req.musicTrackId.isSome then env.musicLoad else Except.ok ()) with
  | Except.error e => ({ dbWrites := w78, jobWrites := [78], result := Except.error e }, false, false)
  | Except.ok _ =>
  match (compose env.composeEnv).result with
  | Except.error e =>
      -- compose itself threw: no cleanupTempDir exists, nothing is removed
      ({ dbWrites := w78, jobWrites := [78], result := Except.error e }, true, false)
  | Except.ok _out =>
    -- try { ... } finally { await compositionResult.cleanupTempDir() }
    match env.update95 with
    | Except.error e => ({ dbWrites := w78, jobWrites := [78], result := Except.error e }, true, true)
    | Except.ok _ =>
    match env.finalUploads with
    | Except.error e =>
        ({ dbWrites := w78 ++ [⟨GenerationStatus.compositing, 95⟩]
           jobWrites := [78, 95], result := Except.error e }, true, true)
    | Except.ok _ =>
    match env.videoInsert with
    | Except.error e =>
        ({ dbWrites := w78 ++ [⟨GenerationStatus.compositing, 95⟩]
           jobWrites := [78, 95], result := Except.error e }, true, true)
    | Except.ok _videoId =>
    match env.finalUpdate with
    | Except.error e =>
        ({ dbWrites := w78 ++ [⟨GenerationStatus.compositing, 95⟩]
           jobWrites := [78, 95], result := Except.error e }, true, true)
    | Except.ok _ =>
        ({ dbWrites := w78 ++ [⟨GenerationStatus.compositing, 95⟩,
                               ⟨GenerationStatus.completed, 100⟩]
           jobWrites := [78, 95, 100], result := Except.ok () }, true, true)

structure PipelineTrace where
  dbWrites : List StatusUpdate
  jobWrites : List Nat
  checks : Nat
  composerInvoked : Bool
  cleanupCalled : Bool
  outcome : Except String Unit

-- one processJob attempt
def processJob (env : PipelineEnv) : PipelineTrace :=
  match env.genReq with
  | none =>
      { dbWrites := [], jobWrites := [], checks := 0,
        composerInvoked := false, cleanupCalled := false,
        outcome := Except.error "Generation request not found" }
  | some req =>
    let s1 := scriptStage env req
    match s1.result with
    | Except.error e =>
        { dbWrites := s1.dbWrites, jobWrites := s1.jobWrites, checks := 0,
          composerInvoked := false, cleanupCalled := false, outcome := Except.error e }
    | Except.ok _scriptText =>
      let s2 := voiceStage env
      match s2.result with
      | Except.error e =>
          { dbWrites := s1.dbWrites ++ s2.dbWrites
            jobWrites := s1.jobWrites ++ s2.jobWrites, checks := 0,
            composerInvoked := false, cleanupCalled := false, outcome := Except.error e }
      | Except.ok _ =>
        let s3p := videoStage env
        match s3p.1.result with
        | Except.error e =>
            { dbWrites := s1.dbWrites ++ s2.dbWrites ++ s3p.1.dbWrites
              jobWrites := s1.jobWrites ++ s2.jobWrites ++ s3p.1.jobWrites
              checks := s3p.2, composerInvoked := false, cleanupCalled := false,
              outcome := Except.error e }
        | Except.ok _ =>
          let s4 := composePublishStage env req
          { dbWrites := s1.dbWrites ++ s2.dbWrites ++ s3p.1.dbWrites ++ s4.1.dbWrites
            jobWrites := s1.jobWrites ++ s2.jobWrites ++ s3p.1.jobWrites ++ s4.1.jobWrites
            checks := s3p.2, composerInvoked := s4.2.1, cleanupCalled := s4.2.2,
            outcome := s4.1.result }

-- videoGenerateWorker.on('failed', ...): the updateGeneration writes the
-- hook performs, given job.attemptsMade and job.opts.attempts
def onFailedHook (attemptsMade : Nat) (attemptsOpt : Option Nat) : List StatusUpdate :=
  if attemptsOpt.getD 3 ≤ attemptsMade then
    [⟨GenerationStatus.failed, 0⟩]
  else []

/-! ## Helper lemmas about the guarded update -/

theorem guarded_head_none_iff (t : List UserRow) (uid : String) (c : Int) :
    (guardedDeductUpdate t uid c).2.head? = none ↔
      ∀ u ∈ t, ¬(u.id = uid ∧ c ≤ u.creditsBalance) := by
  simp [guardedDeductUpdate, List.head?_eq_none_iff, List.filter_eq_nil_iff]

theorem guarded_preserves_nonneg (t : List UserRow) (uid : String) (c : Int)
    (h : ∀ u ∈ t, 0 ≤ u.creditsBalance) :
    ∀ u ∈ (guardedDeductUpdate t uid c).1, 0 ≤ u.creditsBalance := by
  intro u hu
  simp only [guardedDeductUpdate, List.mem_map] at hu
  obtain ⟨v, hv, rfl⟩ := hu
  split
  · next hg => simpa using sub_nonneg.mpr hg.2
  · exact h v hv

theorem postGeneration_of_head_none (db : Db) (queue : List String) (uid : String)
    (input : CreateGenerationInput) (newId : String) (eok : Bool)
    (hh : (guardedDeductUpdate db.users uid
        (creditsNeededFor input.durationSeconds input.visibility : Nat)).2.head? = none) :
    postGeneration db queue uid input newId eok =
      { statusCode := 402
        response := SubmitResponse.insufficient
          (creditsNeededFor input.durationSeconds input.visibility : Nat)
        db := db
        queue := queue } := by
  simp only [postGeneration, hh]

theorem postGeneration_of_head_some (db : Db) (queue : List String) (uid : String)
    (input : CreateGenerationInput) (newId : String) (eok : Bool) (b : Int)
    (hh : (guardedDeductUpdate db.users uid
        (creditsNeededFor input.durationSeconds input.visibility : Nat)).2.head? = some b) :
    postGeneration db queue uid input newId eok =
      (if eok then
        { statusCode := 201
          response := SubmitResponse.created (builtRequest uid input newId)
          db := committedDb db uid input newId
          queue := enqueueAdd queue newId }
      else
        { statusCode := 500
          response := SubmitResponse.internalErr
          db := markRequestFailed (committedDb db uid input newId) newId
          queue := queue }) := by
  simp only [postGeneration, hh]

/-! ## Claim C1 -/

/-- C1: the submission deducts credits through the single server-side guarded
update inside the transaction: balances stay nonnegative at every committed
state; when no row passes the guard the handler returns 402 with
required = creditsNeeded and commits no GenerationRequest row, no
CreditTransaction row and no balance change; when the guard passes, the
matching user's balance is decremented by exactly creditsNeeded. -/
theorem submission_guarded_deduction
    (db : Db) (queue : List String) (uid : String) (input : CreateGenerationInput)
    (newId : String) (eok : Bool)
    (hnn : ∀ u ∈ db.users, 0 ≤ u.creditsBalance) :
    (∀ u ∈ (postGeneration db queue uid input newId eok).db.users,
        0 ≤ u.creditsBalance) ∧
    ((∀ u ∈ db.users,
        ¬(u.id = uid ∧
          ((creditsNeededFor input.durationSeconds input.visibility : Nat) : Int) ≤
            u.creditsBalance)) →
       postGeneration db queue uid input newId eok =
         { statusCode := 402
           response := SubmitResponse.insufficient
             (creditsNeededFor input.durationSeconds input.visibility : Nat)
           db := db
           queue := queue }) ∧
    (∀ u ∈ db.users, u.id = uid →
       ((creditsNeededFor input.durationSeconds input.visibility : Nat) : Int) ≤
           u.creditsBalance →
       ∃ u2 ∈ (postGeneration db queue uid input newId eok).db.users,
         u2.id = uid ∧
         u2.creditsBalance =
           u.creditsBalance -
             ((creditsNeededFor input.durationSeconds input.visibility : Nat) : Int)) := by
  refine ⟨?_, ?_, ?_⟩
  · cases hh : (guardedDeductUpdate db.users uid
        (creditsNeededFor input.durationSeconds input.visibility : Nat)).2.head? with
    | none =>
        rw [postGeneration_of_head_none db queue uid input newId eok hh]
        exact hnn
    | some b =>
        rw [postGeneration_of_head_some db queue uid input newId eok b hh]
        by_cases he : eok <;>
          simp only [he, if_true, if_false, committedDb, markRequestFailed] <;>
          exact guarded_preserves_nonneg _ _ _ hnn
  · intro hall
    exact postGeneration_of_head_none db queue uid input newId eok
      ((guarded_head_none_iff _ _ _).mpr hall)
  · intro u hu huid hbal
    have hne : (guardedDeductUpdate db.users uid
        (creditsNeededFor input.durationSeconds input.visibility : Nat)).2.head? ≠ none := by
      rw [Ne, guarded_head_none_iff]
      push_neg
      exact ⟨u, hu, huid, hbal⟩
    cases hh : (guardedDeductUpdate db.users uid
        (creditsNeededFor input.durationSeconds input.visibility : Nat)).2.head? with
    | none => exact absurd hh hne
    | some b =>
        rw [postGeneration_of_head_some db queue uid input newId eok b hh]
        have husers :
            (if eok then
              { statusCode := 201
                response := SubmitResponse.created (builtRequest uid input newId)
                db := committedDb db uid input newId
                queue := enqueueAdd queue newId }
             else
              { statusCode := 500
                response := SubmitResponse.internalErr
                db := markRequestFailed (committedDb db uid input newId) newId
                queue := queue } : SubmitOutcome).db.users =
              (guardedDeductUpdate db.users uid
                (creditsNeededFor input.durationSeconds input.visibility : Nat)).1 := by
          by_cases he : eok <;> simp [he, committedDb, markRequestFailed]
        rw [husers]
        refine ⟨{ u with creditsBalance := u.creditsBalance -
          ((creditsNeededFor input.durationSeconds input.visibility : Nat) : Int) }, ?_, by simp [huid], by simp⟩
        simp only [guardedDeductUpdate, List.mem_map]
        exact ⟨u, hu, by rw [if_pos ⟨huid, hbal⟩]⟩

/-! ## Sample data for witnesses -/

def sampleInput : CreateGenerationInput :=
  { visualPrompt := "A peaceful mountain scene"
    scriptType := ScriptType.ai_generated
    scriptContent := none
    durationSeconds := 60
    ambientSoundId := none
    musicTrackId := none
    visibility := Visibility.vpublic }

def sampleDbLow : Db :=
  { users := [{ id := "user-1", creditsBalance := 3 }]
    generationRequests := []
    creditTransactions := [] }

def sampleDbRich : Db :=
  { users := [{ id := "user-1", creditsBalance := 100 }]
    generationRequests := []
    creditTransactions := [] }

/-- witness for C1: a user with balance 3 submitting a 5-credit request gets
402 with required 5 and the database is untouched. -/
theorem submission_guarded_deduction_witness :
    postGeneration sampleDbLow [] "user-1" sampleInput "req-1" true =
      { statusCode := 402
        response := SubmitResponse.insufficient 5
        db := sampleDbLow
        queue := [] } := by
  have h := (submission_guarded_deduction sampleDbLow [] "user-1" sampleInput
      "req-1" true (by decide)).2.1 (by decide)
  simpa using h

/-! ## Claim C2 -/

theorem mem_enqueueAdd (q : List String) (i : String) : i ∈ enqueueAdd q i := by
  unfold enqueueAdd
  split
  · assumption
  · simp

theorem enqueueAdd_idem (q : List String) (i : String) :
    enqueueAdd (enqueueAdd q i) i = enqueueAdd q i := by
  conv_lhs => rw [enqueueAdd]
  rw [if_pos (mem_enqueueAdd q i)]

/-- C2: once the transaction has committed, the handler enqueues one durable
job whose message id is the created request's id (so a second enqueue of that
id adds no second message); when enqueue fails it best-effort marks the
request failed and answers 500 Internal; otherwise it answers 201 with the
created request. -/
theorem submission_enqueue
    (db : Db) (queue : List String) (uid : String) (input : CreateGenerationInput)
    (newId : String)
    (hsome : ∃ u ∈ db.users, u.id = uid ∧
      ((creditsNeededFor input.durationSeconds input.visibility : Nat) : Int) ≤
        u.creditsBalance) :
    (postGeneration db queue uid input newId true =
       { statusCode := 201
         response := SubmitResponse.created (builtRequest uid input newId)
         db := committedDb db uid input newId
         queue := enqueueAdd queue newId } ∧
     (builtRequest uid input newId).id = newId ∧
     newId ∈ enqueueAdd queue newId ∧
     enqueueAdd (enqueueAdd queue newId) newId = enqueueAdd queue newId) ∧
    (postGeneration db queue uid input newId false =
       { statusCode := 500
         response := SubmitResponse.internalErr
         db := markRequestFailed (committedDb db uid input newId) newId
         queue := queue } ∧
     ∀ r ∈ (postGeneration db queue uid input newId false).db.generationRequests,
       r.id = newId → r.status = GenerationStatus.failed) := by
  have hne : (guardedDeductUpdate db.users uid
      (creditsNeededFor input.durationSeconds input.visibility : Nat)).2.head? ≠ none := by
    rw [Ne, guarded_head_none_iff]
    push_neg
    obtain ⟨u, hu, huid, hbal⟩ := hsome
    exact ⟨u, hu, huid, hbal⟩
  cases hh : (guardedDeductUpdate db.users uid
      (creditsNeededFor input.durationSeconds input.visibility : Nat)).2.head? with
  | none => exact absurd hh hne
  | some b =>
    have h201 := postGeneration_of_head_some db queue uid input newId true b hh
    have h500 := postGeneration_of_head_some db queue uid input newId false b hh
    rw [if_pos rfl] at h201
    rw [if_neg (by simp)] at h500
    refine ⟨⟨h201, rfl, mem_enqueueAdd queue newId, enqueueAdd_idem queue newId⟩,
            h500, ?_⟩
    rw [h500]
    intro r hr hid
    simp only [markRequestFailed, List.mem_map] at hr
    obtain ⟨x, _hx, rfl⟩ := hr
    by_cases hxid : x.id = newId
    · simp [hxid]
    · rw [if_neg hxid] at hid ⊢
      exact absurd hid hxid

/-- witness for C2: a rich user's submission answers 201 and the queue holds
exactly the one message whose id is the new request's id. -/
theorem submission_enqueue_witness :
    (postGeneration sampleDbRich [] "user-1" sampleInput "req-1" true).statusCode = 201 ∧
    (postGeneration sampleDbRich [] "user-1" sampleInput "req-1" true).queue = ["req-1"] := by
  have h := (submission_enqueue sampleDbRich [] "user-1" sampleInput "req-1"
      (by decide)).1.1
  rw [h]
  exact ⟨rfl, by simp [enqueueAdd]⟩

/-! ## Claim C7 -/

/-- C7: the pricing table maps 60, 120, 180, 300 to 5, 8, 12, 15 with a +3
private surcharge, and the one creditsNeeded value is simultaneously the
amount tested by the guard, the creditsCharged stored on the created request,
and the negated amount of the generation_spend ledger row; a 402 reports the
same value as required. -/
theorem pricing_table_consistency
    (db : Db) (queue : List String) (uid : String) (input : CreateGenerationInput)
    (newId : String) (eok : Bool) :
    (creditsNeededFor 60 Visibility.vpublic = 5 ∧
     creditsNeededFor 120 Visibility.vpublic = 8 ∧
     creditsNeededFor 180 Visibility.vpublic = 12 ∧
     creditsNeededFor 300 Visibility.vpublic = 15 ∧
     creditsNeededFor 60 Visibility.vprivate = 8 ∧
     creditsNeededFor 120 Visibility.vprivate = 11 ∧
     creditsNeededFor 180 Visibility.vprivate = 15 ∧
     creditsNeededFor 300 Visibility.vprivate = 18) ∧
    (∀ req, (postGeneration db queue uid input newId eok).response =
        SubmitResponse.created req →
      req.creditsCharged =
        ((creditsNeededFor input.durationSeconds input.visibility : Nat) : Int) ∧
      (∃ u ∈ db.users, u.id = uid ∧
         ((creditsNeededFor input.durationSeconds input.visibility : Nat) : Int) ≤
           u.creditsBalance) ∧
      (∃ t, (postGeneration db queue uid input newId eok).db.creditTransactions.getLast?
          = some t ∧
        t.userId = uid ∧
        t.amount = -((creditsNeededFor input.durationSeconds input.visibility : Nat) : Int) ∧
        t.type = CreditTransactionType.generation_spend)) ∧
    (∀ r, (postGeneration db queue uid input newId eok).response =
        SubmitResponse.insufficient r →
      r = ((creditsNeededFor input.durationSeconds input.visibility : Nat) : Int)) := by
  refine ⟨by decide, ?_, ?_⟩
  · intro req hreq
    cases hh : (guardedDeductUpdate db.users uid
        (creditsNeededFor input.durationSeconds input.visibility : Nat)).2.head? with
    | none =>
        rw [postGeneration_of_head_none db queue uid input newId eok hh] at hreq
        exact absurd hreq (by simp)
    | some b =>
        have hex : ∃ u ∈ db.users, u.id = uid ∧
            ((creditsNeededFor input.durationSeconds input.visibility : Nat) : Int) ≤
              u.creditsBalance := by
          by_contra hall
          push_neg at hall
          have : (guardedDeductUpdate db.users uid
              (creditsNeededFor input.durationSeconds input.visibility : Nat)).2.head?
              = none := by
            rw [guarded_head_none_iff]
            intro u hu
            rintro ⟨huid, hbal⟩
            exact absurd hbal (by simpa using hall u hu huid)
          rw [this] at hh
          exact absurd hh (by simp)
        rw [postGeneration_of_head_some db queue uid input newId eok b hh] at hreq ⊢
        by_cases he : eok
        · rw [if_pos he] at hreq ⊢
          simp only [SubmitResponse.created.injEq] at hreq
          subst hreq
          refine ⟨by simp [builtRequest], hex, builtTxn uid input, ?_, rfl, ?_, rfl⟩
          · simp [committedDb]
          · simp [builtTxn]
        · rw [if_neg he] at hreq
          exact absurd hreq (by simp)
  · intro r hr
    cases hh : (guardedDeductUpdate db.users uid
        (creditsNeededFor input.durationSeconds input.visibility : Nat)).2.head? with
    | none =>
        rw [postGeneration_of_head_none db queue uid input newId eok hh] at hr
        simp only [SubmitResponse.insufficient.injEq] at hr
        exact hr.symm
    | some b =>
        rw [postGeneration_of_head_some db queue uid input newId eok b hh] at hr
        by_cases he : eok
        · rw [if_pos he] at hr
          exact absurd hr (by simp)
        · rw [if_neg he] at hr
          exact absurd hr (by simp)

/-- witness for C7: a private 120-second submission by the rich user is
charged 11 credits, stored and ledgered as 11. -/
theorem pricing_table_consistency_witness :
    creditsNeededFor 120 Visibility.vprivate = 11 ∧
    ∃ req, (postGeneration sampleDbRich [] "user-1"
        { sampleInput with durationSeconds := 120, visibility := Visibility.vprivate }
        "req-1" true).response = SubmitResponse.created req ∧
      req.creditsCharged = 11 := by
  have h := (pricing_table_consistency sampleDbRich [] "user-1"
      { sampleInput with durationSeconds := 120, visibility := Visibility.vprivate }
      "req-1" true).2.1
  refine ⟨by decide, builtRequest "user-1"
      { sampleInput with durationSeconds := 120, visibility := Visibility.vprivate }
      "req-1", ?_, ?_⟩
  · rw [postGeneration_of_head_some _ _ _ _ _ _ 89 (by decide), if_pos rfl]
  · have := h (builtRequest "user-1"
      { sampleInput with durationSeconds := 120, visibility := Visibility.vprivate }
      "req-1") (by rw [postGeneration_of_head_some _ _ _ _ _ _ 89 (by decide), if_pos rfl])
    simpa using this.1

/-! ## Claim C4 -/

theorem find?_eq_find?_filter {α : Type} (l : List α) (p q : α → Bool)
    (h : ∀ a, p a = true → q a = true) :
    l.find? p = (l.filter q).find? p := by
  induction l with
  | nil => rfl
  | cons a t ih =>
    by_cases hp : p a = true
    · rw [List.find?_cons_of_pos _ hp, List.filter_cons_of_pos (h a hp),
        List.find?_cons_of_pos _ hp]
    · by_cases hq : q a = true
      · rw [List.find?_cons_of_neg _ (by simpa using hp), List.filter_cons_of_pos hq,
          List.find?_cons_of_neg _ (by simpa using hp), ih]
      · rw [List.find?_cons_of_neg _ (by simpa using hp),
          List.filter_cons_of_neg (by simpa using hq), ih]

/-- C4: the progress endpoint answers 404 whenever no request row matches
both the id and the authenticated user (in particular for every id owned by
another user); a 200 answer is exactly the {id, status, progress, videoId}
projection of an owned row; and the answer is a function of the caller's own
rows only, so it neither depends on nor reveals other users' requests. -/
theorem progress_endpoint_isolation (db db2 : Db) (userId reqId : String) :
    ((∀ r ∈ db.generationRequests, r.id = reqId → r.userId ≠ userId) →
       getProgress db userId reqId = Except.error 404) ∧
    (∀ v, getProgress db userId reqId = Except.ok v →
       ∃ r ∈ db.generationRequests, r.userId = userId ∧ r.id = reqId ∧
         v = { id := r.id, status := r.status, progress := r.progress,
               videoId := r.videoId }) ∧
    (db.generationRequests.filter (fun r => decide (r.userId = userId)) =
       db2.generationRequests.filter (fun r => decide (r.userId = userId)) →
     getProgress db userId reqId = getProgress db2 userId reqId) := by
  refine ⟨?_, ?_, ?_⟩
  · intro hall
    have hnone : db.generationRequests.find?
        (fun r => decide (r.id = reqId ∧ r.userId = userId)) = none := by
      rw [List.find?_eq_none]
      intro r hr
      simp only [decide_eq_true_eq, not_and]
      intro hid
      exact hall r hr hid
    unfold getProgress
    rw [hnone]
  · intro v hv
    cases hf : db.generationRequests.find?
        (fun r => decide (r.id = reqId ∧ r.userId = userId)) with
    | none =>
      unfold getProgress at hv
      rw [hf] at hv
      exact absurd hv (by simp)
    | some r =>
      have hmem := List.mem_of_find?_eq_some hf
      have hpred := List.find?_some hf
      simp only [decide_eq_true_eq] at hpred
      refine ⟨r, hmem, hpred.2, hpred.1, ?_⟩
      unfold getProgress at hv
      rw [hf] at hv
      simp only [Except.ok.injEq] at hv
      exact hv.symm
  · intro hfilter
    have hq : ∀ r : GenRequestRow,
        decide (r.id = reqId ∧ r.userId = userId) = true →
        decide (r.userId = userId) = true := by
      intro r hr
      simp only [decide_eq_true_eq] at hr ⊢
      exact hr.2
    unfold getProgress
    rw [find?_eq_find?_filter db.generationRequests _ _ hq,
      find?_eq_find?_filter db2.generationRequests _ _ hq, hfilter]

def sampleReqRowBob : GenRequestRow :=
  { id := "r2"
    userId := "bob"
    status := GenerationStatus.pending
    visualPrompt := "x"
    scriptType := ScriptType.ai_generated
    scriptContent := none
    durationSeconds := 60
    ambientSoundId := none
    musicTrackId := none
    creditsCharged := 5
    progress := 0
    videoId := none }

def sampleDbBob : Db :=
  { users := []
    generationRequests := [sampleReqRowBob]
    creditTransactions := [] }

/-- witness for C4: alice asking for bob's request r2 gets 404. -/
theorem progress_endpoint_isolation_witness :
    getProgress sampleDbBob "alice" "r2" = Except.error 404 :=
  (progress_endpoint_isolation sampleDbBob sampleDbBob "alice" "r2").1 (by decide)

/-! ## Claim C10 -/

/-- C10: the durationSeconds field of createGenerationRequestSchema accepts
the numbers 60, 120, 180, 300 and the decimal strings of those numbers
(strings are normalized to the number by the transform), and rejects every
other value, so every parsed request carries a numeric durationSeconds in
sixty, one-twenty, one-eighty or three-hundred. -/
theorem duration_schema_round_trip (j : Json) (q : ℚ) :
    (parseDurationSeconds (Json.num 60) = some 60 ∧
     parseDurationSeconds (Json.num 120) = some 120 ∧
     parseDurationSeconds (Json.num 180) = some 180 ∧
     parseDurationSeconds (Json.num 300) = some 300 ∧
     parseDurationSeconds (Json.str "60") = some 60 ∧
     parseDurationSeconds (Json.str "120") = some 120 ∧
     parseDurationSeconds (Json.str "180") = some 180 ∧
     parseDurationSeconds (Json.str "300") = some 300) ∧
    (parseDurationSeconds j = some q →
       q = 60 ∨ q = 120 ∨ q = 180 ∨ q = 300) ∧
    (parseDurationSeconds j ≠ none →
       j = Json.num 60 ∨ j = Json.num 120 ∨ j = Json.num 180 ∨ j = Json.num 300 ∨
       j = Json.str "60" ∨ j = Json.str "120" ∨ j = Json.str "180" ∨
       j = Json.str "300") := by
  refine ⟨by decide, ?_, ?_⟩ <;>
  · cases j with
    | num n =>
      simp only [parseDurationSeconds, zodDurationEnum, zodLiteralNum, Option.map_none]
      split_ifs with h1 h2 h3 h4 <;> simp_all
    | str s =>
      simp only [parseDurationSeconds, zodDurationEnum, zodLiteralNum]
      split_ifs with h1
      · rcases h1 with h | h | h | h <;> simp_all [jsNumberOfEnum]
      · simp_all
    | boolean b => simp [parseDurationSeconds, zodDurationEnum, zodLiteralNum]
    | jnull => simp [parseDurationSeconds, zodDurationEnum, zodLiteralNum]

/-- witness for C10: the string form one-twenty parses and is normalized to
the number. -/
theorem duration_schema_round_trip_witness :
    parseDurationSeconds (Json.str "120") = some 120 ∧
    ((120 : ℚ) = 60 ∨ (120 : ℚ) = 120 ∨ (120 : ℚ) = 180 ∨ (120 : ℚ) = 300) := by
  refine ⟨by decide, ?_⟩
  exact (duration_schema_round_trip (Json.str "120") 120).2.1 (by decide)

/-! ## Stage write shapes (the possible updateGeneration write lists of each
    worker stage) -/

theorem scriptStage_dbWrites (env : PipelineEnv) (req : GenRequestRow) :
    (scriptStage env req).dbWrites = [] ∨
    (scriptStage env req).dbWrites = [⟨GenerationStatus.generating_script, 5⟩] ∨
    (scriptStage env req).dbWrites =
      [⟨GenerationStatus.generating_script, 5⟩,
       ⟨GenerationStatus.generating_script, 15⟩] := by
  unfold scriptStage
  dsimp only
  split_ifs
  · split <;> simp
  · simp

theorem voiceStage_dbWrites (env : PipelineEnv) :
    (voiceStage env).dbWrites = [⟨GenerationStatus.generating_voice, 20⟩] ∨
    (voiceStage env).dbWrites =
      [⟨GenerationStatus.generating_voice, 20⟩,
       ⟨GenerationStatus.generating_voice, 35⟩] := by
  unfold voiceStage
  split
  · simp
  · split <;> simp

theorem videoStage_dbWrites (env : PipelineEnv) :
    (videoStage env).1.dbWrites = [⟨GenerationStatus.generating_video, 40⟩] ∨
    (videoStage env).1.dbWrites =
      [⟨GenerationStatus.generating_video, 40⟩,
       ⟨GenerationStatus.generating_video, 75⟩] := by
  unfold videoStage
  split
  · simp
  · split
    · simp
    · dsimp only
      split <;> simp

theorem composePublishStage_dbWrites (env : PipelineEnv) (req : GenRequestRow) :
    (composePublishStage env req).1.dbWrites = [⟨GenerationStatus.compositing, 78⟩] ∨
    (composePublishStage env req).1.dbWrites =
      [⟨GenerationStatus.compositing, 78⟩, ⟨GenerationStatus.compositing, 95⟩] ∨
    (composePublishStage env req).1.dbWrites =
      [⟨GenerationStatus.compositing, 78⟩, ⟨GenerationStatus.compositing, 95⟩,
       ⟨GenerationStatus.completed, 100⟩] := by
  unfold composePublishStage
  split
  · simp
  · split
    · simp
    · split
      · simp
      · split
        · simp
        · split
          · simp
          · split
            · simp
            · split
              · simp
              · split
                · simp
                · split <;> simp

/-! ## Concrete worker environments -/

def sampleGenReq : GenRequestRow :=
  { id := "gen-1"
    userId := "user-1"
    status := GenerationStatus.pending
    visualPrompt := "A peaceful mountain scene"
    scriptType := ScriptType.ai_generated
    scriptContent := none
    durationSeconds := 60
    ambientSoundId := none
    musicTrackId := none
    creditsCharged := 5
    progress := 0
    videoId := none }

-- 125.5 seconds, the probed duration the repository's composer test uses,
-- written as an explicit rational so that kernel evaluation is possible
def probed125p5 : Rat := { num := 251, den := 2, den_nz := by norm_num, reduced := by norm_num }

-- half a second, also written as an explicit rational
def probedHalf : Rat := { num := 1, den := 2, den_nz := by norm_num, reduced := by norm_num }

def happyComposeEnv : ComposeEnv :=
  { hasAmbient := false
    hasMusic := false
    writesOk := true
    probe := Except.ok (some probed125p5)
    ffmpegRunOk := true
    thumbOk := true }

def happyEnv : PipelineEnv :=
  { genReq := some sampleGenReq
    scriptGen := Except.ok "Take a deep breath and settle in."
    voiceSynth := Except.ok ()
    voiceUpload := Except.ok ()
    videoStart := Except.ok "veo-1"
    veoStatusAt := fun _ => Except.ok VeoStatus.completed
    videoDownload := Except.ok ()
    voiceDownload := Except.ok ()
    ambientLoad := Except.ok ()
    musicLoad := Except.ok ()
    composeEnv := happyComposeEnv
    update95 := Except.ok ()
    finalUploads := Except.ok ()
    videoInsert := Except.ok "video-1"
    finalUpdate := Except.ok () }

def envVoiceFail : PipelineEnv :=
  { happyEnv with voiceSynth := Except.error "ElevenLabs unavailable" }

def envComposeFail : PipelineEnv :=
  { happyEnv with composeEnv := { happyComposeEnv with probe := Except.ok (some 0) } }

def envUploadFail : PipelineEnv :=
  { happyEnv with finalUploads := Except.error "S3 unavailable" }

/-! ## Claims C3 and C5 -/

theorem processJob_write_facts (env : PipelineEnv) :
    List.Chain' (· ≤ ·) ((processJob env).dbWrites.map StatusUpdate.progress) ∧
    ∀ u ∈ (processJob env).dbWrites, u.status ≠ GenerationStatus.failed := by
  unfold processJob
  split
  · exact ⟨by simp, by simp⟩
  · rename_i req heq
    dsimp only
    split
    · rcases scriptStage_dbWrites env req with h | h | h <;>
        rw [h] <;> dsimp only <;> exact ⟨by norm_num, by decide⟩
    · split
      · rcases scriptStage_dbWrites env req with h | h | h <;>
          rcases voiceStage_dbWrites env with h2 | h2 <;>
          rw [h, h2] <;> dsimp only <;> exact ⟨by norm_num, by decide⟩
      · split
        · rcases scriptStage_dbWrites env req with h | h | h <;>
            rcases voiceStage_dbWrites env with h2 | h2 <;>
            rcases videoStage_dbWrites env with h3 | h3 <;>
            rw [h, h2, h3] <;> dsimp only <;> exact ⟨by norm_num, by decide⟩
        · rcases scriptStage_dbWrites env req with h | h | h <;>
            rcases voiceStage_dbWrites env with h2 | h2 <;>
            rcases videoStage_dbWrites env with h3 | h3 <;>
            rcases composePublishStage_dbWrites env req with h4 | h4 | h4 <;>
            rw [h, h2, h3, h4] <;> dsimp only <;> exact ⟨by norm_num, by decide⟩

/-- C3 (amended): within one worker attempt the updateGeneration progress
writes are monotonically non-decreasing; the terminal update of the
failed hook, however, writes progress 0 instead of freezing the last
value. -/
theorem progress_monotone_per_attempt (env : PipelineEnv) (a : Nat) (o : Option Nat) :
    List.Chain' (· ≤ ·) ((processJob env).dbWrites.map StatusUpdate.progress) ∧
    (onFailedHook a o ≠ [] →
      onFailedHook a o = [⟨GenerationStatus.failed, 0⟩]) := by
  refine ⟨(processJob_write_facts env).1, ?_⟩
  intro hne
  unfold onFailedHook at hne ⊢
  split at hne
  · rw [if_pos (by assumption)]
  · exact absurd rfl hne

/-- witness for C3: on the happy-path attempt the db progress writes are
non-decreasing, and an exhausted job's hook write is failed with progress 0. -/
theorem progress_monotone_per_attempt_witness :
    List.Chain' (· ≤ ·) ((processJob happyEnv).dbWrites.map StatusUpdate.progress) ∧
    onFailedHook 3 none = [⟨GenerationStatus.failed, 0⟩] :=
  ⟨(progress_monotone_per_attempt happyEnv 3 none).1,
   (progress_monotone_per_attempt happyEnv 3 none).2 (by decide)⟩

/-- C3 counterexample: an attempt that fails during the voice stage last
wrote progress 20; the exhausted-retries hook then writes progress 0, so the
lifetime write sequence 5, 15, 20, 0 is not non-decreasing and the terminal
failed update lowers progress instead of freezing it. -/
theorem progress_lowered_on_terminal_failure :
    (processJob envVoiceFail).dbWrites.map StatusUpdate.progress = [5, 15, 20] ∧
    onFailedHook 3 none = [⟨GenerationStatus.failed, 0⟩] ∧
    ¬ List.Chain' (· ≤ ·)
        (((processJob envVoiceFail).dbWrites ++ onFailedHook 3 none).map
          StatusUpdate.progress) := by
  have h1 : (processJob envVoiceFail).dbWrites =
      [⟨GenerationStatus.generating_script, 5⟩, ⟨GenerationStatus.generating_script, 15⟩,
       ⟨GenerationStatus.generating_voice, 20⟩] := by decide
  have h2 : onFailedHook 3 none = [⟨GenerationStatus.failed, 0⟩] := by decide
  refine ⟨by rw [h1]; rfl, h2, ?_⟩
  rw [h1, h2]
  norm_num

/-- C5: no updateGeneration write of a worker attempt carries the failed
status; only the queue's job-failed hook writes failed, and it does so
exactly when attemptsMade has reached opts.attempts (default 3). -/
theorem failed_only_after_exhaustion (env : PipelineEnv) (a : Nat) (o : Option Nat) :
    (∀ u ∈ (processJob env).dbWrites, u.status ≠ GenerationStatus.failed) ∧
    (onFailedHook a o ≠ [] → o.getD 3 ≤ a) ∧
    (o.getD 3 ≤ a → onFailedHook a o = [⟨GenerationStatus.failed, 0⟩]) ∧
    (a < o.getD 3 → onFailedHook a o = []) := by
  refine ⟨(processJob_write_facts env).2, ?_, ?_, ?_⟩
  · intro hne
    by_contra hlt
    exact hne (by unfold onFailedHook; rw [if_neg hlt])
  · intro hle
    unfold onFailedHook
    rw [if_pos hle]
  · intro hlt
    unfold onFailedHook
    rw [if_neg (by omega)]

/-- witness for C5: the attempt that fails in the voice stage never writes
failed itself; the hook stays silent at attempt 1 of 3 and writes failed at
attempt 3 of 3. -/
theorem failed_only_after_exhaustion_witness :
    (∀ u ∈ (processJob envVoiceFail).dbWrites, u.status ≠ GenerationStatus.failed) ∧
    onFailedHook 1 (some 3) = [] ∧
    onFailedHook 3 (some 3) = [⟨GenerationStatus.failed, 0⟩] :=
  ⟨(failed_only_after_exhaustion envVoiceFail 1 (some 3)).1,
   (failed_only_after_exhaustion envVoiceFail 1 (some 3)).2.2.2 (by decide),
   (failed_only_after_exhaustion envVoiceFail 3 (some 3)).2.2.1 (by decide)⟩

/-! ## Claim C6 -/

theorem pollLoop_checks_le (s : Nat → Except String VeoStatus) :
    ∀ remaining polls st, (pollLoop s st polls remaining).checks ≤ remaining := by
  intro remaining
  induction remaining with
  | zero =>
    intro polls st
    cases st <;> simp [pollLoop]
  | succ r ih =>
    intro polls st
    cases st with
    | completed => simp [pollLoop]
    | failedSt e => simp [pollLoop]
    | processing =>
      rw [pollLoop]
      cases hs : s (polls + 1) with
      | error e => simp
      | ok st2 =>
        dsimp only
        exact Nat.succ_le_succ (ih (polls + 1) st2)

theorem pollLoop_all_processing (s : Nat → Except String VeoStatus)
    (hs : ∀ k, s k = Except.ok VeoStatus.processing) :
    ∀ remaining polls,
      (pollLoop s VeoStatus.processing polls remaining).result =
        Except.error "Veo video generation timed out after 8 minutes" ∧
      (pollLoop s VeoStatus.processing polls remaining).checks = remaining := by
  intro remaining
  induction remaining with
  | zero => intro polls; simp [pollLoop]
  | succ r ih =>
    intro polls
    rw [pollLoop, hs (polls + 1)]
    dsimp only
    exact ⟨(ih (polls + 1)).1, by rw [(ih (polls + 1)).2]⟩

theorem pollLoop_writes_formula (s : Nat → Except String VeoStatus) :
    ∀ remaining polls st,
      (pollLoop s st polls remaining).writes =
        (List.range (pollLoop s st polls remaining).writes.length).map
          (fun j => pollProgress (polls + 1 + j)) := by
  intro remaining
  induction remaining with
  | zero =>
    intro polls st
    cases st <;> simp [pollLoop]
  | succ r ih =>
    intro polls st
    cases st with
    | completed => simp [pollLoop]
    | failedSt e => simp [pollLoop]
    | processing =>
      rw [pollLoop]
      cases hs : s (polls + 1) with
      | error e => simp
      | ok st2 =>
        dsimp only
        rw [ih (polls + 1) st2]
        simp only [List.length_cons, List.length_map, List.length_range,
          List.range_succ_eq_map, List.map_cons, List.map_map]
        congr 1
        refine List.map_congr_left fun a ha => ?_
        simp only [Function.comp_apply]
        congr 1
        omega

theorem pollProgress_le (p : Nat) : pollProgress p ≤ 75 :=
  Nat.min_le_right _ _

theorem pollProgress_mono {p q : Nat} (h : p ≤ q) : pollProgress p ≤ pollProgress q := by
  unfold pollProgress
  have : (35 * p + 24) / 48 ≤ (35 * q + 24) / 48 :=
    Nat.div_le_div_right (by omega)
  omega

/-- C6 (amended): the poll loop always terminates with at most
VEO_MAX_POLLS = 48 in-loop status checks; when the provider reports
processing on every poll it fails with the error message
"Veo video generation timed out after 8 minutes" after exactly 48 in-loop
checks; and every progress value it reports equals
40 + round(polls / 48 * 35) at its poll index, clamped to at most 75. -/
theorem poll_loop_bounded (s : Nat → Except String VeoStatus) (st : VeoStatus) :
    ((pollLoop s st 0 VEO_MAX_POLLS).checks ≤ VEO_MAX_POLLS) ∧
    ((∀ k, s k = Except.ok VeoStatus.processing) →
      (pollLoop s VeoStatus.processing 0 VEO_MAX_POLLS).result =
        Except.error "Veo video generation timed out after 8 minutes" ∧
      (pollLoop s VeoStatus.processing 0 VEO_MAX_POLLS).checks = VEO_MAX_POLLS) ∧
    ((pollLoop s st 0 VEO_MAX_POLLS).writes =
      (List.range (pollLoop s st 0 VEO_MAX_POLLS).writes.length).map
        (fun j => pollProgress (j + 1))) ∧
    (∀ p, pollProgress p = min (40 + (35 * p + 24) / 48) 75 ∧ pollProgress p ≤ 75) := by
  refine ⟨pollLoop_checks_le s VEO_MAX_POLLS 0 st, ?_, ?_, ?_⟩
  · intro hs
    exact pollLoop_all_processing s hs VEO_MAX_POLLS 0
  · rw [pollLoop_writes_formula s VEO_MAX_POLLS 0 st]
    simp only [List.length_map, List.length_range]
    refine List.map_congr_left ?_
    intro j _
    congr 1
    omega
  · intro p
    exact ⟨rfl, pollProgress_le p⟩

/-- witness for C6: with a provider that reports processing forever, the
loop stops after exactly 48 in-loop checks with the timeout error. -/
theorem poll_loop_bounded_witness :
    (pollLoop (fun _ => Except.ok VeoStatus.processing) VeoStatus.processing 0
        VEO_MAX_POLLS).result =
      Except.error "Veo video generation timed out after 8 minutes" ∧
    (pollLoop (fun _ => Except.ok VeoStatus.processing) VeoStatus.processing 0
        VEO_MAX_POLLS).checks = VEO_MAX_POLLS :=
  (poll_loop_bounded (fun _ => Except.ok VeoStatus.processing)
    VeoStatus.processing).2.1 (fun _ => rfl)

/-- C6 counterexample: the error raised at the poll cap is
"Veo video generation timed out after 8 minutes", not the claimed
"Veo generation timed out after 8 minutes". -/
theorem poll_timeout_message_differs :
    (pollLoop (fun _ => Except.ok VeoStatus.processing) VeoStatus.processing 0
        VEO_MAX_POLLS).result =
      Except.error "Veo video generation timed out after 8 minutes" ∧
    (pollLoop (fun _ => Except.ok VeoStatus.processing) VeoStatus.processing 0
        VEO_MAX_POLLS).result ≠
      Except.error "Veo generation timed out after 8 minutes" := by
  constructor <;> decide

/-! ## Claim C8 -/

theorem composePublishStage_flags (env : PipelineEnv) (req : GenRequestRow) :
    (composePublishStage env req).2.2 = true ↔
      ((composePublishStage env req).2.1 = true ∧
        ∃ out, (compose env.composeEnv).result = Except.ok out) := by
  unfold composePublishStage
  split
  · simp
  · split
    · simp
    · split
      · simp
      · split
        · simp
        · split
          · rename_i e heq
            simp [heq]
          · rename_i out heq
            split <;> (try split) <;> (try split) <;> (try split) <;> simp [heq]

/-- C8 (amended): the composer's scratch directory is cleaned up on every
path on which compose returns successfully — even when the post-compose
update, the uploads, the Video insert or the final request update fail —
but on a path where compose itself throws, no cleanup function exists and
nothing is removed: cleanup runs exactly when the composer was invoked and
returned. -/
theorem cleanup_unconditional_after_compose (env : PipelineEnv) :
    (processJob env).cleanupCalled = true ↔
      ((processJob env).composerInvoked = true ∧
        ∃ out, (compose env.composeEnv).result = Except.ok out) := by
  unfold processJob
  split
  · simp
  · rename_i req heq
    dsimp only
    split
    · simp
    · split
      · simp
      · split
        · simp
        · exact composePublishStage_flags env req

/-- witness for C8: on an attempt whose final uploads fail after a
successful composition, cleanup still runs. -/
theorem cleanup_unconditional_after_compose_witness :
    (processJob envUploadFail).cleanupCalled = true :=
  (cleanup_unconditional_after_compose envUploadFail).mpr
    ⟨by decide, ⟨⟨126, 126⟩, by decide⟩⟩

/-- C8 counterexample: when compose itself throws (probed voiceover duration
0), the composer was invoked and its scratch directory was created, but no
cleanup happens before the attempt finishes. -/
theorem compose_failure_leaks_scratch_dir :
    (processJob envComposeFail).composerInvoked = true ∧
    (compose envComposeFail.composeEnv).dirCreated = true ∧
    (compose envComposeFail.composeEnv).result =
      Except.error "Invalid voiceover duration" ∧
    (processJob envComposeFail).cleanupCalled = false := by
  refine ⟨by decide, by decide, by decide, by decide⟩

/-! ## Claim C9 -/

def cenvHalf : ComposeEnv :=
  { happyComposeEnv with probe := Except.ok (some probedHalf) }

/-- C9 (amended): compose returns durationSeconds equal to the ceiling of
the probed voiceover duration and passes exactly that value to the -t trim
option; it throws Invalid voiceover duration exactly when that ceiling is
below 1 — that is, when the probed duration is zero, negative or missing,
not whenever it is under one second; the requested durationSeconds is not
among compose's inputs. -/
theorem compose_duration_spec (cenv : ComposeEnv) :
    (∀ d, cenv.probe = Except.ok d → cenv.writesOk = true →
        cenv.ffmpegRunOk = true → cenv.thumbOk = true →
        1 ≤ ⌈(d.getD 0 : ℚ)⌉ →
      (compose cenv).result =
        Except.ok ⟨⌈(d.getD 0 : ℚ)⌉, ⌈(d.getD 0 : ℚ)⌉⟩) ∧
    (∀ d, cenv.probe = Except.ok d → cenv.writesOk = true →
      (⌈(d.getD 0 : ℚ)⌉ < 1 ↔
        (compose cenv).result = Except.error "Invalid voiceover duration")) ∧
    (∀ out, (compose cenv).result = Except.ok out →
      out.trimSeconds = out.durationSeconds ∧ 1 ≤ out.durationSeconds ∧
      ∃ d, cenv.probe = Except.ok d ∧
        out.durationSeconds = ⌈(d.getD 0 : ℚ)⌉) ∧
    (∀ (envP : PipelineEnv) (req : GenRequestRow) (n : Nat),
      composePublishStage envP { req with durationSeconds := n } =
        composePublishStage envP req) := by
  refine ⟨?_, ?_, ?_, fun envP req n => rfl⟩
  · intro d hd hw hf ht hge
    unfold compose
    rw [hd, if_neg (by simp [hw])]
    dsimp only
    rw [if_neg (by omega), if_neg (by simp [hf]), if_neg (by simp [ht])]
  · intro d hd hw
    constructor
    · intro hlt
      unfold compose
      rw [hd, if_neg (by simp [hw])]
      dsimp only
      rw [if_pos hlt]
    · intro herr
      by_contra hge
      push_neg at hge
      unfold compose at herr
      rw [hd, if_neg (by simp [hw])] at herr
      dsimp only at herr
      rw [if_neg (by omega)] at herr
      cases hfb : cenv.ffmpegRunOk with
      | false =>
        rw [if_pos (by simp [hfb])] at herr
        simp at herr
      | true =>
        rw [if_neg (by simp [hfb])] at herr
        cases htb : cenv.thumbOk with
        | false =>
          rw [if_pos (by simp [htb])] at herr
          simp at herr
        | true =>
          rw [if_neg (by simp [htb])] at herr
          simp at herr
  · intro out hout
    unfold compose at hout
    split at hout
    · simp at hout
    · rename_i hw
      cases hp : cenv.probe with
      | error e =>
        rw [hp] at hout
        simp at hout
      | ok d =>
        rw [hp] at hout
        dsimp only at hout
        split at hout
        · simp at hout
        · rename_i hge
          split at hout
          · simp at hout
          · split at hout
            · simp at hout
            · simp only [Except.ok.injEq] at hout
              subst hout
              exact ⟨rfl, by show (1 : Int) ≤ ⌈(d.getD 0 : ℚ)⌉; omega, d, rfl, rfl⟩

/-- witness for C9: on the happy composition (probed duration 125.5 s) the
returned and trimmed duration is the ceiling, 126. -/
theorem compose_duration_spec_witness :
    (compose happyComposeEnv).result = Except.ok ⟨126, 126⟩ := by
  have h := (compose_duration_spec happyComposeEnv).1 (some probed125p5)
    rfl rfl rfl rfl (by decide)
  rw [h]
  decide

/-- C9 counterexample: a probed voiceover duration of one half second is
under one second, yet compose does not throw — it returns duration 1. -/
theorem compose_subsecond_accepted :
    (probedHalf < 1) ∧ (0 < probedHalf) ∧
    (compose cenvHalf).result = Except.ok ⟨1, 1⟩ := by
  refine ⟨by decide, by decide, by decide⟩

end Meditations
